import Mathlib

/-!
Verification development for the proof-of-inference mining backend
(submission verification and reward/reputation pipeline).

We give a shallow embedding of the core pipeline:

* a model of Python's `json.loads` over character lists (module `json`),
  used by `claude_verification._parse_claude_response`;
* the verdict parser and `verify_submission` of `claude_verification.py`
  (the judge's raw response text and the measured elapsed time are inputs,
  since the network call itself is external I/O);
* the database service layer of `frontend/services.py` as explicit state
  passing over an in-memory table state;
* the submission endpoint of `main.py` and the mock-fallback endpoint of
  `backend/app.py`.

Python floats are modelled as exact rationals (the claims under study are
algebraic identities, not rounding statements); Python's dynamically typed
dictionary values are modelled by a `Json` value type, so that fields the
code stores without coercion (`is_valid`, `feedback`) keep their raw shape.
-/

namespace RitualMining

/-- An exact decimal number `man / 10 ^ exp`, the model of the floating-point
values flowing through the pipeline (scores, rewards).  Kept unnormalized so
that every arithmetic step is plain integer arithmetic; `Dec.toRat` gives the
value it denotes. -/
structure Dec where
  man : Int
  exp : Nat
  deriving DecidableEq

/-- The rational value a `Dec` denotes. -/
def Dec.toRat (d : Dec) : ℚ := (d.man : ℚ) / 10 ^ d.exp

/-- Exact product of two decimals (the model of the float multiplication in
the reward computation). -/
def Dec.mul (a b : Dec) : Dec := ⟨a.man * b.man, a.exp + b.exp⟩

/-- A parsed JSON value, the model of what `json.loads` returns.  Numbers are
exact decimals; object members keep their textual order (Python builds a
`dict`, so lookups resolve duplicate keys to the last occurrence — see
`dictGet`). -/
inductive Json where
  | null : Json
  | bool (b : Bool) : Json
  | num (d : Dec) : Json
  | str (s : List Char) : Json
  | arr (elems : List Json) : Json
  | obj (members : List (List Char × Json)) : Json

/-- JSON whitespace (space, tab, newline, carriage return). -/
def isWs (c : Char) : Bool :=
  c == ' ' || c == Char.ofNat 9 || c == Char.ofNat 10 || c == Char.ofNat 13

/-- Drop leading JSON whitespace. -/
def skipWs (cs : List Char) : List Char := cs.dropWhile isWs

/-- Split a character list into its leading run of decimal digits and the rest. -/
def splitDigits (cs : List Char) : List Char × List Char :=
  (cs.takeWhile Char.isDigit, cs.dropWhile Char.isDigit)

/-- Numeric value of a digit run. -/
def digitsVal (ds : List Char) : Nat :=
  ds.foldl (fun a c => a * 10 + (c.toNat - 48)) 0

/-- Value of a hexadecimal digit, if any. -/
def hexVal (c : Char) : Option Nat :=
  if c.isDigit then some (c.toNat - 48)
  else if 'a' ≤ c ∧ c ≤ 'f' then some (c.toNat - 87)
  else if 'A' ≤ c ∧ c ≤ 'F' then some (c.toNat - 55)
  else none

/-- Parse the exponent suffix of a JSON number (after the `e`/`E`), applied
to an already-parsed mantissa `man / 10 ^ fexp`. -/
def parseExponent (man : Int) (fexp : Nat) (cs : List Char) :
    Option (Dec × List Char) :=
  let (eneg, cs1) :=
    match cs with
    | '-' :: rest => (true, rest)
    | '+' :: rest => (false, rest)
    | _ => (false, cs)
  let (ds, cs2) := splitDigits cs1
  if ds.isEmpty then none
  else
    let e := digitsVal ds
    if eneg then some (⟨man, fexp + e⟩, cs2)
    else some (⟨man * (10 : Int) ^ e, fexp⟩, cs2)

/-- Parse a JSON number (optional minus, integer digits, optional fraction,
optional exponent) into an exact decimal.  Slightly lenient about leading
zeros, which `json.loads` rejects; no claim depends on that corner. -/
def parseNumber (cs : List Char) : Option (Dec × List Char) :=
  let (neg, cs1) :=
    match cs with
    | '-' :: rest => (true, rest)
    | _ => (false, cs)
  let (ip, cs2) := splitDigits cs1
  if ip.isEmpty then none
  else
    let step1 : Option (Int × Nat × List Char) :=
      match cs2 with
      | '.' :: rest =>
        let (ds, r) := splitDigits rest
        if ds.isEmpty then none
        else some ((digitsVal (ip ++ ds) : Int), ds.length, r)
      | _ => some ((digitsVal ip : Int), 0, cs2)
    match step1 with
    | none => none
    | some (man0, fexp, cs3) =>
      let man1 := if neg then -man0 else man0
      match cs3 with
      | 'e' :: rest => parseExponent man1 fexp rest
      | 'E' :: rest => parseExponent man1 fexp rest
      | _ => some (⟨man1, fexp⟩, cs3)

/-- Prepend a character to the string under construction inside an
`Option`-valued string-body parse. -/
def consMap (c : Char) (o : Option (List Char × List Char)) :
    Option (List Char × List Char) :=
  o.map (fun p => (c :: p.1, p.2))

/-- Parse the body of a JSON string after the opening quote, handling the
escape sequences `json.loads` accepts; returns the decoded characters and
the remainder after the closing quote. -/
def parseStringBody : List Char → Option (List Char × List Char)
  | [] => none
  | '"' :: rest => some ([], rest)
  | '\\' :: '"' :: rest => consMap '"' (parseStringBody rest)
  | '\\' :: '\\' :: rest => consMap '\\' (parseStringBody rest)
  | '\\' :: '/' :: rest => consMap '/' (parseStringBody rest)
  | '\\' :: 'b' :: rest => consMap (Char.ofNat 8) (parseStringBody rest)
  | '\\' :: 'f' :: rest => consMap (Char.ofNat 12) (parseStringBody rest)
  | '\\' :: 'n' :: rest => consMap '\n' (parseStringBody rest)
  | '\\' :: 'r' :: rest => consMap '\r' (parseStringBody rest)
  | '\\' :: 't' :: rest => consMap '\t' (parseStringBody rest)
  | '\\' :: 'u' :: h1 :: h2 :: h3 :: h4 :: rest =>
    (match hexVal h1, hexVal h2, hexVal h3, hexVal h4 with
     | some a, some b, some c, some d =>
       consMap (Char.ofNat (((a * 16 + b) * 16 + c) * 16 + d)) (parseStringBody rest)
     | _, _, _, _ => none)
  | '\\' :: _ :: rest =>
    -- invalid escape: `json.loads` rejects the document
    (fun _ => none) rest
  | '\\' :: [] => none
  | c :: rest => consMap c (parseStringBody rest)

mutual

/-- Fueled recursive-descent parse of one JSON value (leading whitespace
allowed), returning the value and the unconsumed remainder. -/
def parseValue : Nat → List Char → Option (Json × List Char)
  | 0, _ => none
  | Nat.succ fuel, cs =>
    match skipWs cs with
    | 't' :: 'r' :: 'u' :: 'e' :: rest => some (.bool true, rest)
    | 'f' :: 'a' :: 'l' :: 's' :: 'e' :: rest => some (.bool false, rest)
    | 'n' :: 'u' :: 'l' :: 'l' :: rest => some (.null, rest)
    | '"' :: rest => (parseStringBody rest).map (fun p => (.str p.1, p.2))
    | '{' :: rest => parseObject fuel (skipWs rest)
    | '[' :: rest => parseArray fuel (skipWs rest)
    | other => (parseNumber other).map (fun p => (.num p.1, p.2))

/-- After an opening brace (and whitespace): either an empty object or a
member list. -/
def parseObject : Nat → List Char → Option (Json × List Char)
  | 0, _ => none
  | Nat.succ fuel, cs =>
    match cs with
    | '}' :: rest => some (.obj [], rest)
    | other => parseMembers fuel other []

/-- Parse one or more `"key": value` members separated by commas, ending at
the closing brace. -/
def parseMembers : Nat → List Char → List (List Char × Json) →
    Option (Json × List Char)
  | 0, _, _ => none
  | Nat.succ fuel, cs, acc =>
    match skipWs cs with
    | '"' :: rest =>
      (match parseStringBody rest with
       | none => none
       | some (key, r1) =>
         match skipWs r1 with
         | ':' :: r2 =>
           (match parseValue fuel r2 with
            | none => none
            | some (v, r3) =>
              match skipWs r3 with
              | ',' :: r4 => parseMembers fuel r4 (acc ++ [(key, v)])
              | '}' :: r4 => some (.obj (acc ++ [(key, v)]), r4)
              | _ => none)
         | _ => none)
    | _ => none

/-- After an opening bracket (and whitespace): either an empty array or an
element list. -/
def parseArray : Nat → List Char → Option (Json × List Char)
  | 0, _ => none
  | Nat.succ fuel, cs =>
    match cs with
    | ']' :: rest => some (.arr [], rest)
    | other => parseElems fuel other []

/-- Parse one or more array elements separated by commas, ending at the
closing bracket. -/
def parseElems : Nat → List Char → List Json → Option (Json × List Char)
  | 0, _, _ => none
  | Nat.succ fuel, cs, acc =>
    match parseValue fuel cs with
    | none => none
    | some (v, r1) =>
      match skipWs r1 with
      | ',' :: r2 => parseElems fuel r2 (acc ++ [v])
      | ']' :: r2 => some (.arr (acc ++ [v]), r2)
      | _ => none

end

/-- Model of `json.loads`: parse the whole text as a single JSON document,
failing (like `json.JSONDecodeError`) on any trailing non-whitespace. -/
def jsonParse (cs : List Char) : Option Json :=
  match parseValue (2 * cs.length + 2) cs with
  | some (v, rest) => if skipWs rest = [] then some v else none
  | none => none

/-- Model of a Python `dict.get` on an object built by `json.loads`: on
duplicate keys the last occurrence wins (dict insertion overwrites). -/
def dictGet (kvs : List (List Char × Json)) (key : List Char) : Option Json :=
  ((kvs.filter (fun p => p.1 == key)).getLast?).map (fun p => p.2)

/-- Model of Python's `float(s)` on a string: strip surrounding whitespace,
allow a leading plus sign, then read a decimal number consuming the whole
string.  (Python also accepts forms like `.5` and `inf`, which never arise
here; the claims only exercise numeric and missing scores.) -/
def pyFloatOfChars (s : List Char) : Option Dec :=
  let t := ((s.dropWhile isWs).reverse.dropWhile isWs).reverse
  let t2 :=
    match t with
    | '+' :: rest => rest
    | _ => t
  match parseNumber t2 with
  | some (d, rest) => if rest.isEmpty then some d else none
  | none => none

/-- Model of Python's `float(x)` on a `json.loads` value: numbers pass
through, booleans become 0/1, numeric strings are parsed; `None`, lists and
dicts raise `TypeError` (ill-formed strings raise `ValueError`), modelled as
`none`. -/
def pyFloat : Json → Option Dec
  | .num d => some d
  | .bool b => some ⟨if b then 1 else 0, 0⟩
  | .str s => pyFloatOfChars s
  | _ => none

/-- Python truthiness of a `json.loads` value, the model of
`if verification_result.is_valid:` on a field stored without coercion. -/
def Json.truthy : Json → Bool
  | .null => false
  | .bool b => b
  | .num d => d.man != 0
  | .str s => !s.isEmpty
  | .arr xs => !xs.isEmpty
  | .obj kvs => !kvs.isEmpty

/-! ### `claude_verification.py`: verdict parsing and `verify_submission`

The judge's raw response text and the measured elapsed time are passed in as
inputs (the network call is external I/O); everything after the call returns
is embedded faithfully: the two-stage parse of `_parse_claude_response`, the
post-hoc timeout check of `verify_submission`, and the wrapping of every
failure in `VerificationError(f"Verification failed: {str(e)}")`. -/

/-- Output of a verification attempt, from the `VerificationResult`
dataclass.  `is_valid` and `feedback` keep the raw JSON shape the code
stores without coercion; `ai_score` has been through `float(...)`.  The
wall-clock `verification_timestamp` field is not modelled. -/
structure VerificationResult where
  submission_id : List Char
  task_id : List Char
  is_valid : Json
  ai_score : Dec
  feedback : Json
  model_used : List Char
  execution_time_ms : Nat

/-- Keep a list up to (and including) its last `}`; empty if it has none. -/
def keepToLastClose (l : List Char) : List Char :=
  (l.reverse.dropWhile (fun c => c != '}')).reverse

/-- Model of `re.search(r'\x7b.*\x7d', text, re.DOTALL)` followed by
`.group()`: the regex is greedy, so the match spans from the first `{` to
the last `}` of the whole text (when the first `{` precedes the last `}`),
not to the matching close brace. -/
def greedyBraceSpan (cs : List Char) : Option (List Char) :=
  if (keepToLastClose (cs.dropWhile (fun c => c != '{'))).isEmpty then none
  else some (keepToLastClose (cs.dropWhile (fun c => c != '{')))

/-- The ways `_parse_claude_response` can fail.

* `noJsonFound raw`: no brace span exists; the code raises
  `VerificationError("Could not parse Claude response: " + raw)`, carrying
  the raw text.
* `decodeError span`: a span was extracted but `json.loads` rejected it;
  the `json.JSONDecodeError` escapes the `except` block.  Its `str(e)`
  reports a position ("Expecting value: line 1 column ..."), not the raw
  response text; we keep the offending span as data and render the message
  without the raw text, as Python does.
* `badScore v`: `float(...)` raised on a non-coercible `score` value.
* `notADict v`: the parsed document is not an object, so `.get` raises
  `AttributeError`. -/
inductive ParseFailure where
  | noJsonFound (raw : List Char) : ParseFailure
  | decodeError (span : List Char) : ParseFailure
  | badScore (v : Json) : ParseFailure
  | notADict (v : Json) : ParseFailure

/-- Assemble a `VerificationResult` from a parsed response document, with
the `.get` defaults of the source: `is_valid` → `False`, `score` → `0.0`
(then coerced by `float`), `feedback` → `"No feedback provided"`. -/
def resultOfDocument (doc : Json) (submission_id task_id : List Char) :
    Except ParseFailure VerificationResult :=
  match doc with
  | .obj kvs =>
    (match pyFloat ((dictGet kvs "score".data).getD (.num ⟨0, 0⟩)) with
     | some q =>
       .ok ⟨submission_id, task_id,
         (dictGet kvs "is_valid".data).getD (.bool false), q,
         (dictGet kvs "feedback".data).getD (.str "No feedback provided".data),
         "claude-3-5-sonnet-20241022".data, 0⟩
     | none => .error (.badScore ((dictGet kvs "score".data).getD (.num ⟨0, 0⟩))))
  | other => .error (.notADict other)

/-- Second half of the fallback: `json.loads` on the extracted span; its
decode error escapes the `except` block when the span is not JSON. -/
def spanParse (span submission_id task_id : List Char) :
    Except ParseFailure VerificationResult :=
  match jsonParse span with
  | some doc => resultOfDocument doc submission_id task_id
  | none => .error (.decodeError span)

/-- The fallback path of `_parse_claude_response`: extract the greedy
`{...}` span and parse it; with no span, raise the error carrying the raw
text. -/
def fallbackParse (response_text submission_id task_id : List Char) :
    Except ParseFailure VerificationResult :=
  match greedyBraceSpan response_text with
  | some span => spanParse span submission_id task_id
  | none => .error (.noJsonFound response_text)

/-- Model of `_parse_claude_response`: parse the whole text as JSON; on
failure, fall back to the greedy span extraction. -/
def parseClaudeResponse (response_text submission_id task_id : List Char) :
    Except ParseFailure VerificationResult :=
  match jsonParse response_text with
  | some doc => resultOfDocument doc submission_id task_id
  | none => fallbackParse response_text submission_id task_id

/-- The `str(e)` of the exception each `ParseFailure` stands for (position
and type details of the Python messages are abbreviated; what matters for
the claims is that only `noJsonFound` carries the raw response text). -/
def parseFailureMessage : ParseFailure → List Char
  | .noJsonFound raw => "Could not parse Claude response: ".data ++ raw
  | .decodeError _ => "Expecting value".data
  | .badScore _ => "could not convert value to float".data
  | .notADict _ => "object has no attribute get".data

/-- Decimal rendering of a natural number, for embedded f-strings. -/
def natChars (n : Nat) : List Char := Nat.toDigits 10 n

/-- The `str(e)` of the `TimeoutError` raised by the post-hoc budget check. -/
def timeoutMessage (execution_time_ms timeout_seconds : Nat) : List Char :=
  "Verification took ".data ++ natChars execution_time_ms ++
    "ms, exceeded ".data ++ natChars timeout_seconds ++ "s limit".data

/-- Model of `ClaudeVerificationClient.verify_submission` after the judge
call returns: parse the response, stamp the measured elapsed time, and
reject post hoc if it exceeded the budget.  Every failure is wrapped as
`VerificationError(f"Verification failed: {str(e)}")`. -/
def verifySubmissionCore (response_text : List Char) (elapsed_ms : Nat)
    (submission_id task_id : List Char) (timeout_seconds : Nat) :
    Except (List Char) VerificationResult :=
  match parseClaudeResponse response_text submission_id task_id with
  | .error f => .error ("Verification failed: ".data ++ parseFailureMessage f)
  | .ok r =>
    let r2 := { r with execution_time_ms := elapsed_ms }
    if elapsed_ms > timeout_seconds * 1000 then
      .error ("Verification failed: ".data ++ timeoutMessage elapsed_ms timeout_seconds)
    else .ok r2

/-! ### `frontend/services.py`: the database service layer

The hosted table store is modelled as an in-memory `DBState` of row lists;
`insert` appends, `select ... eq` reads the first matching row (`data[0]`),
and `update ... eq` rewrites every matching row, exactly as the client
behaves.  Row fields not read or written by any embedded operation
(timestamps, titles, budgets, ...) are elided. -/

/-- A row of the `tasks` table (the fields the pipeline touches). -/
structure Task where
  id : List Char
  task_type : List Char
  status : List Char
  reward_per_submission : Dec
  current_submissions : Nat
  deriving DecidableEq

/-- A row of the `users` table. -/
structure User where
  id : List Char
  wallet_address : List Char
  username : List Char
  reputation_score : Int
  total_tasks_completed : Nat
  total_rewards_earned : Dec
  deriving DecidableEq

/-- A row of the `submissions` table.  `is_valid` and `feedback` keep the
raw JSON shape the dynamically typed code stores. -/
structure SubmissionRow where
  id : List Char
  task_id : List Char
  user_id : List Char
  ai_score : Option Dec
  is_valid : Option Json
  feedback : Option Json
  reward_earned : Dec
  is_paid : Bool

/-- A row of the append-only `reputation_events` table. -/
structure ReputationEventRow where
  id : List Char
  user_id : List Char
  event_type : List Char
  reason : Json
  delta : Int

/-- The table store. -/
structure DBState where
  tasks : List Task
  users : List User
  submissions : List SubmissionRow
  events : List ReputationEventRow

/-- `TaskService.get_task`: first row with the given id, if any. -/
def getTask (st : DBState) (task_id : List Char) : Option Task :=
  st.tasks.find? (fun t => t.id == task_id)

/-- `UserService.get_or_create_user`: return the first row with the given
wallet address, or insert (and return) a fresh user with the initial
reputation of 50 and zeroed totals. -/
def getOrCreateUser (st : DBState) (wallet_address fresh_user_id : List Char) :
    User × DBState :=
  match st.users.find? (fun u => u.wallet_address == wallet_address) with
  | some u => (u, st)
  | none =>
    let u : User :=
      ⟨fresh_user_id, wallet_address, "miner_".data ++ wallet_address.take 8,
        50, 0, ⟨0, 0⟩⟩
    (u, { st with users := st.users ++ [u] })

/-- `SubmissionService.create_submission`: insert a pending row with null
result fields. -/
def createSubmission (st : DBState) (task_id user_id fresh_submission_id : List Char) :
    SubmissionRow × DBState :=
  let row : SubmissionRow :=
    ⟨fresh_submission_id, task_id, user_id, none, none, none, ⟨0, 0⟩, false⟩
  (row, { st with submissions := st.submissions ++ [row] })

/-- `SubmissionService.update_submission_verification`: set the verdict
fields on every row with the given id. -/
def updateSubmissionVerification (st : DBState) (submission_id : List Char)
    (ai_score : Dec) (is_valid : Json) (feedback : Json) (reward_earned : Dec) :
    DBState :=
  { st with
    submissions := st.submissions.map (fun s =>
      if s.id == submission_id then
        { s with ai_score := some ai_score, is_valid := some is_valid,
                 feedback := some feedback, reward_earned := reward_earned }
      else s) }

/-- `UserService.update_user_reputation`: read the current score of the
first row with the given id, clamp `current + delta` into `[0, 100]`, and
persist the clamped value; a missing user is a silent no-op. -/
def updateUserReputation (st : DBState) (user_id : List Char) (delta : Int) :
    DBState :=
  match st.users.find? (fun u => u.id == user_id) with
  | none => st
  | some u =>
    let new_rep := max 0 (min 100 (u.reputation_score + delta))
    { st with
      users := st.users.map (fun v =>
        if v.id == user_id then { v with reputation_score := new_rep } else v) }

/-- `ReputationService.create_reputation_event`: append the event carrying
the requested delta, then apply the clamped reputation update. -/
def createReputationEvent (st : DBState) (fresh_event_id user_id event_type : List Char)
    (reason : Json) (delta : Int) : DBState :=
  let st2 :=
    { st with events := st.events ++ [⟨fresh_event_id, user_id, event_type, reason, delta⟩] }
  updateUserReputation st2 user_id delta

/-- `TaskService.update_task_submission_count`: read the count of the first
row with the given id and write `count + 1` back to every row with that id;
a missing task is a silent no-op. -/
def updateTaskSubmissionCount (st : DBState) (task_id : List Char) : DBState :=
  match getTask st task_id with
  | none => st
  | some t =>
    { st with
      tasks := st.tasks.map (fun u =>
        if u.id == task_id then { u with current_submissions := t.current_submissions + 1 }
        else u) }

/-! ### `main.py`: the submission endpoint

`submit_inference` drives a submission end to end.  The verification call's
outcome is an input (`.ok result`, or `.error msg` for any raised
exception), since the judge call is external I/O; everything else — the
lookups, inserts, reward computation, reputation events, and the
failed-path bookkeeping — is embedded step for step. -/

/-- The HTTP-visible outcome of `POST /tasks/.../submit` in `main.py`. -/
inductive SubmitOutcome where
  | taskNotFound : SubmitOutcome
  | success (submission_id : List Char) (verification : VerificationResult)
      (reward_earned : Dec) : SubmitOutcome
  | verificationFailed (detail : List Char) : SubmitOutcome

/-- Model of `main.py`'s `submit_inference`. -/
def submitInference (st : DBState) (task_id miner_wallet : List Char)
    (fresh_user_id fresh_submission_id fresh_event_id : List Char)
    (verification : Except (List Char) VerificationResult) :
    DBState × SubmitOutcome :=
  match getTask st task_id with
  | none => (st, .taskNotFound)
  | some task =>
    let p1 := getOrCreateUser st miner_wallet fresh_user_id
    let user := p1.1
    let st1 := p1.2
    let p2 := createSubmission st1 task_id user.id fresh_submission_id
    let sub := p2.1
    let st2 := p2.2
    match verification with
    | .ok result =>
      let reward := Dec.mul task.reward_per_submission result.ai_score
      let st3 := updateSubmissionVerification st2 sub.id result.ai_score
        result.is_valid result.feedback reward
      let st4 :=
        if result.is_valid.truthy then
          createReputationEvent st3 fresh_event_id user.id
            "submission_accepted".data result.feedback 5
        else
          createReputationEvent st3 fresh_event_id user.id
            "submission_rejected".data result.feedback (-2)
      let st5 := updateTaskSubmissionCount st4 task_id
      (st5, .success sub.id result reward)
    | .error e =>
      let st3 := updateSubmissionVerification st2 sub.id ⟨0, 0⟩ (.bool false)
        (.str ("Verification error: ".data ++ e)) ⟨0, 0⟩
      let st4 := createReputationEvent st3 fresh_event_id user.id
        "submission_rejected".data (.str "Verification failed".data) (-1)
      (st4, .verificationFailed ("Verification failed: ".data ++ e))

/-! ### `backend/app.py`: the in-memory variant with mock fallback

This variant stores tasks and submissions in process-global dictionaries
and, instead of failing a submission when the live judge raises, substitutes
a fixed mock verdict.  `claude_available` is the import-time
`CLAUDE_AVAILABLE` flag; `live_call` is the outcome of the live
`verify_submission` call when one is made. -/

/-- A row of the in-memory `tasks_db` of `backend/app.py`. -/
structure AppTask where
  id : List Char
  reward_per_submission : Dec
  current_submissions : Nat

/-- A row of the in-memory `submissions_db` of `backend/app.py`. -/
structure AppSubmission where
  id : List Char
  task_id : List Char
  status : List Char
  ai_score : Option Dec
  is_valid : Option Json
  feedback : Option Json
  reward_earned : Option Dec
  model_used : Option (List Char)
  verification_type : Option (List Char)

/-- The in-memory stores of `backend/app.py`. -/
structure AppState where
  tasks : List AppTask
  submissions : List AppSubmission

/-- `get_mock_verification_result_object`: the fixed mock verdict. -/
def mockVerificationResult (submission_id task_id : List Char) : VerificationResult :=
  ⟨submission_id, task_id, .bool true, ⟨85, 2⟩,
    .str "Mock verification: Submission appears correct based on task requirements".data,
    "mock-verifier".data, 100⟩

/-- The HTTP-visible outcome of `POST /tasks/.../submit` in `backend/app.py`
(its success path always completes the submission). -/
inductive AppSubmitOutcome where
  | taskNotFound : AppSubmitOutcome
  | success (submission_id : List Char) (verification : VerificationResult)
      (reward_earned : Dec) (verification_type : List Char) : AppSubmitOutcome

/-- Model of `backend/app.py`'s `submit_inference`. -/
def appSubmitInference (st : AppState) (task_id fresh_submission_id : List Char)
    (claude_available : Bool) (live_call : Except (List Char) VerificationResult) :
    AppState × AppSubmitOutcome :=
  match st.tasks.find? (fun t => t.id == task_id) with
  | none => (st, .taskNotFound)
  | some task =>
    let pending : AppSubmission :=
      ⟨fresh_submission_id, task_id, "pending".data, none, none, none, none, none, none⟩
    let st1 : AppState := { st with submissions := st.submissions ++ [pending] }
    let rv : VerificationResult × List Char :=
      if claude_available then
        match live_call with
        | .ok r => (r, "claude_ai".data)
        | .error _ => (mockVerificationResult fresh_submission_id task_id, "mock_fallback".data)
      else (mockVerificationResult fresh_submission_id task_id, "mock".data)
    let result := rv.1
    let vtype := rv.2
    let reward := Dec.mul task.reward_per_submission result.ai_score
    let st2 : AppState :=
      { st1 with
        submissions := st1.submissions.map (fun s =>
          if s.id == fresh_submission_id then
            { s with ai_score := some result.ai_score, is_valid := some result.is_valid,
                     feedback := some result.feedback, reward_earned := some reward,
                     status := "completed".data, model_used := some result.model_used,
                     verification_type := some vtype }
          else s) }
    let st3 : AppState :=
      { st2 with
        tasks := st2.tasks.map (fun t =>
          if t.id == task_id then { t with current_submissions := t.current_submissions + 1 }
          else t) }
    (st3, .success fresh_submission_id result reward vtype)

/-! ### Spec-modelled comparison definition for the fallback extraction -/

/-- Scan for the close of the brace opened at the head of the input,
tracking nesting depth and accumulating the scanned characters. -/
def balancedScan : List Char → Nat → List Char → Option (List Char)
  | [], _, _ => none
  | c :: rest, depth, acc =>
    if c = '{' then balancedScan rest (depth + 1) (acc ++ [c])
    else if c = '}' then
      (if depth = 1 then some (acc ++ [c]) else balancedScan rest (depth - 1) (acc ++ [c]))
    else balancedScan rest depth (acc ++ [c])

/-- Modelled from the spec: the "first balanced `\x7b...\x7d` substring" of
the text, for comparison with the source's greedy regex extraction
(`greedyBraceSpan`), which the spec's wording does not match. -/
def firstBalancedBrace (cs : List Char) : Option (List Char) :=
  balancedScan (cs.dropWhile (fun c => c != '{')) 0 []

/-! ### Concrete inputs used by witnesses and counterexamples -/

/-- The spec's fallback-extraction example response text. -/
def specFallbackText : List Char :=
  "Sure! \x7b\"is_valid\": false, \"score\": 0.1, \"feedback\": \"bad\"\x7d thanks".data

/-- The spec's identity-round-trip example response text. -/
def roundTripText : List Char :=
  "\x7b\"is_valid\":true,\"score\":0.72,\"feedback\":\"ok\"\x7d".data

/-- A response text with two brace groups: whole-text parsing fails, and the
greedy extraction disagrees with the first balanced substring. -/
def twoGroupText : List Char :=
  "a \x7b\"is_valid\": true, \"score\": 1.0, \"feedback\": \"ok\"\x7d b \x7b\"x\": 1\x7d c".data

/-- The greedy `re.search` span of `twoGroupText`: first `\x7b` to last `\x7d`. -/
def twoGroupGreedySpan : List Char :=
  "\x7b\"is_valid\": true, \"score\": 1.0, \"feedback\": \"ok\"\x7d b \x7b\"x\": 1\x7d".data

/-- The first balanced brace substring of `twoGroupText`. -/
def twoGroupBalancedSpan : List Char :=
  "\x7b\"is_valid\": true, \"score\": 1.0, \"feedback\": \"ok\"\x7d".data

/-- A response text whose brace span exists but is not valid JSON. -/
def badSpanText : List Char := "x \x7bbad\x7d y".data

/-- The (unparsable) brace span of `badSpanText`. -/
def badSpan : List Char := "\x7bbad\x7d".data

/-- A task row paying 10.0 per submission. -/
def wTask : Task := ⟨"t1".data, "evaluation".data, "active".data, ⟨100, 1⟩, 0⟩

/-- A store holding just `wTask`. -/
def wState : DBState := ⟨[wTask], [], [], []⟩

/-- A successful verdict scoring 0.85. -/
def wResult : VerificationResult :=
  ⟨"s1".data, "t1".data, .bool true, ⟨85, 2⟩, .str "good".data,
    "claude-3-5-sonnet-20241022".data, 1200⟩

/-- A verdict whose score 5.0 lies outside `[0, 1]`. -/
def wResultHigh : VerificationResult :=
  ⟨"s1".data, "t1".data, .bool true, ⟨5, 0⟩, .str "generous".data,
    "claude-3-5-sonnet-20241022".data, 1200⟩

/-- A store with a single user at reputation 98. -/
def repSt98 : DBState := ⟨[], [⟨"u1".data, "w".data, "n".data, 98, 0, ⟨0, 0⟩⟩], [], []⟩

/-- A store with a single user at reputation 1. -/
def repSt1 : DBState := ⟨[], [⟨"u1".data, "w".data, "n".data, 1, 0, ⟨0, 0⟩⟩], [], []⟩

/-- The empty store. -/
def emptyState : DBState := ⟨[], [], [], []⟩

/-- An existing user row for the get-or-create test. -/
def existingUser : User := ⟨"u9".data, "0xwallet".data, "alice".data, 73, 4, ⟨25, 1⟩⟩

/-- A store already holding `existingUser`. -/
def existingUserState : DBState := ⟨[], [existingUser], [], []⟩

/-- An in-memory app store with one task paying 10.0. -/
def appState1 : AppState := ⟨[⟨"t1".data, ⟨100, 1⟩, 0⟩], []⟩

/-! ## Helper lemmas -/

/-- `Dec.mul` computes the exact product of the denoted values. -/
theorem Dec.toRat_mul (a b : Dec) : (Dec.mul a b).toRat = a.toRat * b.toRat := by
  simp only [Dec.mul, Dec.toRat, Int.cast_mul, pow_add]
  ring

@[simp] theorem getOrCreateUser_tasks (st : DBState) (w f : List Char) :
    ((getOrCreateUser st w f).2).tasks = st.tasks := by
  unfold getOrCreateUser; split <;> rfl

@[simp] theorem getOrCreateUser_submissions (st : DBState) (w f : List Char) :
    ((getOrCreateUser st w f).2).submissions = st.submissions := by
  unfold getOrCreateUser; split <;> rfl

@[simp] theorem getOrCreateUser_events (st : DBState) (w f : List Char) :
    ((getOrCreateUser st w f).2).events = st.events := by
  unfold getOrCreateUser; split <;> rfl

@[simp] theorem createSubmission_fst (st : DBState) (tid uid sid : List Char) :
    (createSubmission st tid uid sid).1 =
      ⟨sid, tid, uid, none, none, none, ⟨0, 0⟩, false⟩ := rfl

@[simp] theorem createSubmission_tasks (st : DBState) (tid uid sid : List Char) :
    ((createSubmission st tid uid sid).2).tasks = st.tasks := rfl

@[simp] theorem createSubmission_events (st : DBState) (tid uid sid : List Char) :
    ((createSubmission st tid uid sid).2).events = st.events := rfl

@[simp] theorem createSubmission_submissions (st : DBState) (tid uid sid : List Char) :
    ((createSubmission st tid uid sid).2).submissions =
      st.submissions ++ [⟨sid, tid, uid, none, none, none, ⟨0, 0⟩, false⟩] := rfl

@[simp] theorem updateSubmissionVerification_tasks (st : DBState) (sid : List Char)
    (sc : Dec) (iv fb : Json) (rw : Dec) :
    (updateSubmissionVerification st sid sc iv fb rw).tasks = st.tasks := rfl

@[simp] theorem updateSubmissionVerification_events (st : DBState) (sid : List Char)
    (sc : Dec) (iv fb : Json) (rw : Dec) :
    (updateSubmissionVerification st sid sc iv fb rw).events = st.events := rfl

@[simp] theorem updateSubmissionVerification_users (st : DBState) (sid : List Char)
    (sc : Dec) (iv fb : Json) (rw : Dec) :
    (updateSubmissionVerification st sid sc iv fb rw).users = st.users := rfl

@[simp] theorem updateSubmissionVerification_submissions (st : DBState) (sid : List Char)
    (sc : Dec) (iv fb : Json) (rw : Dec) :
    (updateSubmissionVerification st sid sc iv fb rw).submissions =
      st.submissions.map (fun s =>
        if s.id == sid then
          { s with ai_score := some sc, is_valid := some iv,
                   feedback := some fb, reward_earned := rw }
        else s) := rfl

@[simp] theorem updateUserReputation_tasks (st : DBState) (uid : List Char) (d : Int) :
    (updateUserReputation st uid d).tasks = st.tasks := by
  unfold updateUserReputation; split <;> rfl

@[simp] theorem updateUserReputation_submissions (st : DBState) (uid : List Char) (d : Int) :
    (updateUserReputation st uid d).submissions = st.submissions := by
  unfold updateUserReputation; split <;> rfl

@[simp] theorem updateUserReputation_events (st : DBState) (uid : List Char) (d : Int) :
    (updateUserReputation st uid d).events = st.events := by
  unfold updateUserReputation; split <;> rfl

@[simp] theorem createReputationEvent_tasks (st : DBState) (eid uid et : List Char)
    (rsn : Json) (d : Int) :
    (createReputationEvent st eid uid et rsn d).tasks = st.tasks := by
  unfold createReputationEvent
  simp

@[simp] theorem createReputationEvent_submissions (st : DBState) (eid uid et : List Char)
    (rsn : Json) (d : Int) :
    (createReputationEvent st eid uid et rsn d).submissions = st.submissions := by
  unfold createReputationEvent
  simp

@[simp] theorem createReputationEvent_events (st : DBState) (eid uid et : List Char)
    (rsn : Json) (d : Int) :
    (createReputationEvent st eid uid et rsn d).events =
      st.events ++ [⟨eid, uid, et, rsn, d⟩] := by
  unfold createReputationEvent
  simp

@[simp] theorem updateTaskSubmissionCount_submissions (st : DBState) (tid : List Char) :
    (updateTaskSubmissionCount st tid).submissions = st.submissions := by
  unfold updateTaskSubmissionCount; split <;> rfl

@[simp] theorem updateTaskSubmissionCount_events (st : DBState) (tid : List Char) :
    (updateTaskSubmissionCount st tid).events = st.events := by
  unfold updateTaskSubmissionCount; split <;> rfl

@[simp] theorem updateTaskSubmissionCount_users (st : DBState) (tid : List Char) :
    (updateTaskSubmissionCount st tid).users = st.users := by
  unfold updateTaskSubmissionCount; split <;> rfl

theorem getTask_eq_of_tasks_eq {st st2 : DBState} (tid : List Char)
    (h : st2.tasks = st.tasks) : getTask st2 tid = getTask st tid := by
  unfold getTask; rw [h]

theorem updateTaskSubmissionCount_tasks_of_found {st : DBState} {tid : List Char}
    {t : Task} (h : getTask st tid = some t) :
    (updateTaskSubmissionCount st tid).tasks =
      st.tasks.map (fun u =>
        if u.id == tid then { u with current_submissions := t.current_submissions + 1 }
        else u) := by
  unfold updateTaskSubmissionCount; rw [h]

theorem submit_count_helper {st2 st : DBState} {tid : List Char} {task : Task}
    (hts : st2.tasks = st.tasks) (h : getTask st tid = some task) :
    (updateTaskSubmissionCount st2 tid).tasks =
      st.tasks.map (fun u =>
        if u.id == tid then { u with current_submissions := task.current_submissions + 1 }
        else u) := by
  rw [updateTaskSubmissionCount_tasks_of_found
    (by rw [getTask_eq_of_tasks_eq _ hts]; exact h), hts]

theorem dropWhile_append_of_all {p : Char → Bool} {a : List Char} (l : List Char)
    (h : ∀ x ∈ a, p x = true) :
    (a ++ l).dropWhile p = l.dropWhile p := by
  induction a with
  | nil => rfl
  | cons x xs ih =>
    rw [List.cons_append, List.dropWhile_cons, h x (List.mem_cons_self x xs)]
    exact ih (fun y hy => h y (List.mem_cons_of_mem x hy))

theorem balancedScan_through : ∀ (b : List Char), '{' ∉ b → '}' ∉ b →
    ∀ (c acc : List Char),
      balancedScan (b ++ '}' :: c) 1 acc = some (acc ++ (b ++ ['}'])) := by
  intro b
  induction b with
  | nil => intro _ _ c acc; simp [balancedScan]
  | cons x xs ih =>
    intro hb1 hb2 c acc
    have hx1 : ¬(x = '{') := fun hh => hb1 (by simp [hh])
    have hx2 : ¬(x = '}') := fun hh => hb2 (by simp [hh])
    rw [List.cons_append]
    show balancedScan (x :: (xs ++ '}' :: c)) 1 acc = _
    rw [balancedScan, if_neg hx1, if_neg hx2,
      ih (fun hh => hb1 (List.mem_cons_of_mem x hh))
         (fun hh => hb2 (List.mem_cons_of_mem x hh)) c (acc ++ [x])]
    simp

theorem greedyBraceSpan_single (a b c : List Char) (ha : '{' ∉ a)
    (hc : '}' ∉ c) :
    greedyBraceSpan (a ++ '{' :: (b ++ '}' :: c)) = some ('{' :: (b ++ ['}'])) := by
  unfold greedyBraceSpan keepToLastClose
  have h1 : (a ++ '{' :: (b ++ '}' :: c)).dropWhile (fun x => x != '{') =
      '{' :: (b ++ '}' :: c) := by
    rw [dropWhile_append_of_all _
      (fun x hx => by
        simp only [bne_iff_ne, ne_eq, decide_eq_true_eq]
        exact fun hh => ha (hh ▸ hx))]
    simp [List.dropWhile_cons]
  rw [h1]
  have h2 : ('{' :: (b ++ '}' :: c)).reverse =
      c.reverse ++ '}' :: (b.reverse ++ ['{']) := by
    simp [List.reverse_cons, List.reverse_append, List.append_assoc]
  rw [h2]
  have h3 : (c.reverse ++ '}' :: (b.reverse ++ ['{'])).dropWhile (fun x => x != '}') =
      '}' :: (b.reverse ++ ['{']) := by
    rw [dropWhile_append_of_all _
      (fun x hx => by
        simp only [bne_iff_ne, ne_eq, decide_eq_true_eq]
        exact fun hh => hc (hh ▸ (List.mem_reverse.mp hx)))]
    simp [List.dropWhile_cons]
  rw [h3]
  simp

theorem firstBalancedBrace_single (a b c : List Char) (ha : '{' ∉ a)
    (hb1 : '{' ∉ b) (hb2 : '}' ∉ b) :
    firstBalancedBrace (a ++ '{' :: (b ++ '}' :: c)) = some ('{' :: (b ++ ['}'])) := by
  unfold firstBalancedBrace
  have h1 : (a ++ '{' :: (b ++ '}' :: c)).dropWhile (fun x => x != '{') =
      '{' :: (b ++ '}' :: c) := by
    rw [dropWhile_append_of_all _
      (fun x hx => by
        simp only [bne_iff_ne, ne_eq, decide_eq_true_eq]
        exact fun hh => ha (hh ▸ hx))]
    simp [List.dropWhile_cons]
  rw [h1]
  show balancedScan ('{' :: (b ++ '}' :: c)) 0 [] = _
  rw [balancedScan, if_pos rfl, balancedScan_through b hb1 hb2 c ([] ++ ['{'])]
  simp

/-! ## Claim theorems -/

/-- Claim C1: on a successful verification, the reward returned to the
caller and persisted on the submission row is exactly
`reward_per_submission * ai_score`; the score is universally quantified
with no range hypothesis, so an out-of-range score propagates directly
into the reward, and the product denotes the exact rational
`reward_per_submission * ai_score`. -/
theorem C1_reward_linear (st : DBState) (task_id wallet fu fs fe : List Char)
    (task : Task) (r : VerificationResult) (h : getTask st task_id = some task) :
    (submitInference st task_id wallet fu fs fe (.ok r)).2 =
      .success fs r (Dec.mul task.reward_per_submission r.ai_score) ∧
    (submitInference st task_id wallet fu fs fe (.ok r)).1.submissions.getLast? =
      some ⟨fs, task_id, (getOrCreateUser st wallet fu).1.id, some r.ai_score,
        some r.is_valid, some r.feedback,
        Dec.mul task.reward_per_submission r.ai_score, false⟩ ∧
    (Dec.mul task.reward_per_submission r.ai_score).toRat =
      task.reward_per_submission.toRat * r.ai_score.toRat := by
  refine ⟨?_, ?_, Dec.toRat_mul _ _⟩
  · unfold submitInference
    rw [h]
    by_cases hv : r.is_valid.truthy <;> simp [hv]
  · unfold submitInference
    rw [h]
    by_cases hv : r.is_valid.truthy
    all_goals
      conv_lhs => simp [hv, List.map_append]
      try simp [List.getLast?_concat]
      try rfl

/-- Witness for C1: `reward_per_submission = 10.0`, `ai_score = 0.85` gives
reward 8.5 exactly, and the out-of-range `ai_score = 5.0` propagates into a
reward of 50. -/
theorem C1_reward_linear_witness :
    (submitInference wState "t1".data "0xabc".data "u1".data "s1".data "e1".data
        (.ok wResult)).2 =
      .success "s1".data wResult (Dec.mul ⟨100, 1⟩ ⟨85, 2⟩) ∧
    (Dec.mul (⟨100, 1⟩ : Dec) ⟨85, 2⟩).toRat = 17 / 2 ∧
    (submitInference wState "t1".data "0xabc".data "u1".data "s1".data "e1".data
        (.ok wResultHigh)).2 =
      .success "s1".data wResultHigh (Dec.mul ⟨100, 1⟩ ⟨5, 0⟩) ∧
    (Dec.mul (⟨100, 1⟩ : Dec) ⟨5, 0⟩).toRat = 50 := by
  refine ⟨(C1_reward_linear wState "t1".data "0xabc".data "u1".data "s1".data
      "e1".data wTask wResult rfl).1, ?_,
    (C1_reward_linear wState "t1".data "0xabc".data "u1".data "s1".data
      "e1".data wTask wResultHigh rfl).1, ?_⟩
  · norm_num [Dec.toRat, Dec.mul]
  · norm_num [Dec.toRat, Dec.mul]

/-- Claim C2: `update_user_reputation` persists exactly
`clamp(old_score + delta, 0, 100)` on every row with the updated user's id,
leaves other rows unchanged, and the clamped value always lies in
`[0, 100]`. -/
theorem C2_reputation_clamped (st : DBState) (uid : List Char) (delta : Int)
    (u : User) (h : st.users.find? (fun v => v.id == uid) = some u) :
    (∀ v ∈ (updateUserReputation st uid delta).users, v.id = uid →
      v.reputation_score = max 0 (min 100 (u.reputation_score + delta))) ∧
    (∀ v ∈ (updateUserReputation st uid delta).users, v.id ≠ uid → v ∈ st.users) ∧
    0 ≤ max 0 (min 100 (u.reputation_score + delta)) ∧
    max 0 (min 100 (u.reputation_score + delta)) ≤ 100 := by
  refine ⟨?_, ?_, le_max_left 0 _, max_le (by norm_num) (min_le_left 100 _)⟩
  · intro v hv hid
    unfold updateUserReputation at hv
    rw [h] at hv
    obtain ⟨w, hw, hfw⟩ := List.mem_map.mp hv
    by_cases hwid : w.id == uid
    · rw [← hfw]; simp [hwid]
    · rw [← hfw] at hid
      simp [hwid] at hid
      exact absurd hid (by simpa using hwid)
  · intro v hv hid
    unfold updateUserReputation at hv
    rw [h] at hv
    obtain ⟨w, hw, hfw⟩ := List.mem_map.mp hv
    by_cases hwid : w.id == uid
    · rw [← hfw] at hid
      simp [hwid] at hid
      exact absurd (by simpa using hwid) hid
    · rw [← hfw]; simp [hwid]; exact hw

/-- Witness for C2 at the spec's examples: `old = 98, delta = +5` persists
100 (not 103), and `old = 1, delta = -2` persists 0 (not -1). -/
theorem C2_reputation_clamped_witness :
    (⟨"u1".data, "w".data, "n".data, 100, 0, ⟨0, 0⟩⟩ : User).reputation_score =
      max 0 (min 100 ((98 : ℤ) + 5)) ∧
    (updateUserReputation repSt98 "u1".data 5).users =
      [⟨"u1".data, "w".data, "n".data, 100, 0, ⟨0, 0⟩⟩] ∧
    (updateUserReputation repSt1 "u1".data (-2)).users =
      [⟨"u1".data, "w".data, "n".data, 0, 0, ⟨0, 0⟩⟩] := by
  refine ⟨?_, by decide, by decide⟩
  exact (C2_reputation_clamped repSt98 "u1".data 5 _ rfl).1
    ⟨"u1".data, "w".data, "n".data, 100, 0, ⟨0, 0⟩⟩ (by decide) (by decide)

/-- Claim C3 (counterexample): on a text with two brace groups, whole-text
parsing fails, the first balanced substring parses to a verdict, but the
code's greedy extraction spans to the last `}` and fails with a decode
error — the parser does not extract the first balanced substring. -/
theorem C3_fallback_counterexample :
    jsonParse twoGroupText = none ∧
    firstBalancedBrace twoGroupText = some twoGroupBalancedSpan ∧
    parseClaudeResponse twoGroupBalancedSpan "s".data "t".data =
      .ok ⟨"s".data, "t".data, .bool true, ⟨10, 1⟩, .str "ok".data,
        "claude-3-5-sonnet-20241022".data, 0⟩ ∧
    parseClaudeResponse twoGroupText "s".data "t".data =
      .error (.decodeError twoGroupGreedySpan) ∧
    (Except.error (ParseFailure.decodeError twoGroupGreedySpan) :
        Except ParseFailure VerificationResult) ≠
      Except.ok ⟨"s".data, "t".data, .bool true, ⟨10, 1⟩, .str "ok".data,
        "claude-3-5-sonnet-20241022".data, 0⟩ := by
  refine ⟨rfl, rfl, rfl, rfl, fun hcon => Except.noConfusion hcon⟩

/-- Claim C3 (amended): the fallback extracts the greedy span from the
first `{` to the last `}` and parses that; on the spec's example — and on
any text whose only braces are a single `{...}` pair — the greedy span
coincides with the first balanced substring, and the example yields
`(false, 0.1, "bad")`. -/
theorem C3_fallback_amended :
    parseClaudeResponse specFallbackText "s".data "t".data =
      .ok ⟨"s".data, "t".data, .bool false, ⟨1, 1⟩, .str "bad".data,
        "claude-3-5-sonnet-20241022".data, 0⟩ ∧
    (∀ a b c : List Char, '{' ∉ a → '{' ∉ b → '}' ∉ b → '}' ∉ c →
      greedyBraceSpan (a ++ '{' :: (b ++ '}' :: c)) = some ('{' :: (b ++ ['}'])) ∧
      firstBalancedBrace (a ++ '{' :: (b ++ '}' :: c)) = some ('{' :: (b ++ ['}']))) := by
  refine ⟨rfl, fun a b c ha hb1 hb2 hc =>
    ⟨greedyBraceSpan_single a b c ha hc, firstBalancedBrace_single a b c ha hb1 hb2⟩⟩

/-- Witness for the amended C3 on a concrete single-brace-pair text. -/
theorem C3_fallback_witness :
    greedyBraceSpan ("ab".data ++ '{' :: ("xy".data ++ '}' :: "cd".data)) =
      some ('{' :: ("xy".data ++ ['}'])) ∧
    firstBalancedBrace ("ab".data ++ '{' :: ("xy".data ++ '}' :: "cd".data)) =
      some ('{' :: ("xy".data ++ ['}'])) :=
  C3_fallback_amended.2 "ab".data "xy".data "cd".data (by decide) (by decide)
    (by decide) (by decide)

/-- Claim C4: when the whole response parses as a JSON object, the verdict
returns the object's `is_valid` field (default `false`), its `score` field
coerced by `float` (default `0.0`), and its `feedback` field (default the
fixed placeholder) — an identity round-trip on well-formed objects. -/
theorem C4_verdict_fields (text sid tid : List Char)
    (kvs : List (List Char × Json)) (q : Dec)
    (hp : jsonParse text = some (.obj kvs))
    (hq : pyFloat ((dictGet kvs "score".data).getD (.num ⟨0, 0⟩)) = some q) :
    parseClaudeResponse text sid tid =
      .ok ⟨sid, tid, (dictGet kvs "is_valid".data).getD (.bool false), q,
        (dictGet kvs "feedback".data).getD (.str "No feedback provided".data),
        "claude-3-5-sonnet-20241022".data, 0⟩ := by
  unfold parseClaudeResponse
  rw [hp]
  show resultOfDocument (.obj kvs) sid tid = _
  simp only [resultOfDocument]
  rw [hq]

/-- Witness for C4 at the spec's round-trip example
`(true, 0.72, "ok")`. -/
theorem C4_verdict_fields_witness :
    parseClaudeResponse roundTripText "s".data "t".data =
      .ok ⟨"s".data, "t".data, .bool true, ⟨72, 2⟩, .str "ok".data,
        "claude-3-5-sonnet-20241022".data, 0⟩ :=
  C4_verdict_fields roundTripText "s".data "t".data
    [("is_valid".data, .bool true), ("score".data, .num ⟨72, 2⟩),
     ("feedback".data, .str "ok".data)] ⟨72, 2⟩ rfl rfl

/-- Claim C5: the timeout check is post hoc — when the parsed judge result
was obtained but the measured time exceeds the budget, verification fails
with the timeout error; a `VerificationResult` is returned only when the
measured time is within the budget (and it carries that time). -/
theorem C5_posthoc_timeout (text sid tid : List Char) (elapsed timeout : Nat) :
    (∀ r : VerificationResult, parseClaudeResponse text sid tid = .ok r →
      elapsed > timeout * 1000 →
      verifySubmissionCore text elapsed sid tid timeout =
        .error ("Verification failed: ".data ++ timeoutMessage elapsed timeout)) ∧
    (∀ r : VerificationResult,
      verifySubmissionCore text elapsed sid tid timeout = .ok r →
      elapsed ≤ timeout * 1000 ∧ r.execution_time_ms = elapsed) := by
  constructor
  · intro r hr hgt
    unfold verifySubmissionCore
    simp [hr, hgt]
  · intro r hok
    unfold verifySubmissionCore at hok
    cases hp : parseClaudeResponse text sid tid with
    | error f => rw [hp] at hok; simp at hok
    | ok r0 =>
      rw [hp] at hok
      by_cases hgt : elapsed > timeout * 1000
      · simp [hgt] at hok
      · simp [hgt] at hok
        exact ⟨Nat.le_of_not_lt hgt, by rw [← hok]⟩

/-- Witness for C5: the round-trip example at 31000 ms with a 30 s budget
fails with the timeout error; at 1200 ms it returns the result carrying
1200 ms. -/
theorem C5_posthoc_timeout_witness :
    verifySubmissionCore roundTripText 31000 "s".data "t".data 30 =
      .error ("Verification failed: ".data ++ timeoutMessage 31000 30) ∧
    verifySubmissionCore roundTripText 1200 "s".data "t".data 30 =
      .ok ⟨"s".data, "t".data, .bool true, ⟨72, 2⟩, .str "ok".data,
        "claude-3-5-sonnet-20241022".data, 1200⟩ ∧
    (1200 : Nat) ≤ 30 * 1000 := by
  refine ⟨(C5_posthoc_timeout roundTripText "s".data "t".data 31000 30).1 _ rfl
      (by norm_num), rfl, ?_⟩
  exact ((C5_posthoc_timeout roundTripText "s".data "t".data 1200 30).2 _ rfl).1

/-- Claim C6 (counterexample): on a text whose brace span exists but is not
JSON, both parsing stages fail, yet the failure is the decode error of the
extracted span — not an unparsable-verdict error carrying the raw response
text, as the claim predicts for every doubly-failing input. -/
theorem C6_unparsable_counterexample :
    jsonParse badSpanText = none ∧
    greedyBraceSpan badSpanText = some badSpan ∧
    jsonParse badSpan = none ∧
    parseClaudeResponse badSpanText "s".data "t".data =
      .error (.decodeError badSpan) ∧
    ParseFailure.decodeError badSpan ≠ ParseFailure.noJsonFound badSpanText ∧
    parseFailureMessage (.decodeError badSpan) = "Expecting value".data := by
  refine ⟨rfl, rfl, rfl, rfl, fun hcon => ParseFailure.noConfusion hcon, rfl⟩

/-- Claim C6 (amended): when whole-text parsing fails and no brace span
exists, parsing fails with the error carrying the raw text; when a span is
extracted but fails to parse, the decode error (which does not carry the
raw text) propagates instead; in every case the orchestrator surfaces the
failure as a `VerificationError` wrapping the cause's message, never a
partial result. -/
theorem C6_unparsable_amended (text sid tid : List Char) :
    (jsonParse text = none → greedyBraceSpan text = none →
      parseClaudeResponse text sid tid = .error (.noJsonFound text)) ∧
    (∀ span : List Char, jsonParse text = none → greedyBraceSpan text = some span →
      jsonParse span = none →
      parseClaudeResponse text sid tid = .error (.decodeError span)) ∧
    (∀ f : ParseFailure, parseClaudeResponse text sid tid = .error f →
      ∀ elapsed timeout : Nat,
        verifySubmissionCore text elapsed sid tid timeout =
          .error ("Verification failed: ".data ++ parseFailureMessage f)) := by
  refine ⟨?_, ?_, ?_⟩
  · intro h1 h2
    unfold parseClaudeResponse
    rw [h1]
    show fallbackParse text sid tid = _
    unfold fallbackParse
    rw [h2]
  · intro span h1 h2 h3
    unfold parseClaudeResponse
    rw [h1]
    show fallbackParse text sid tid = _
    unfold fallbackParse
    rw [h2]
    show spanParse span sid tid = _
    unfold spanParse
    rw [h3]
  · intro f hf elapsed timeout
    unfold verifySubmissionCore
    rw [hf]

/-- Witness for the amended C6 at the spec's example "I cannot comply". -/
theorem C6_unparsable_witness :
    parseClaudeResponse "I cannot comply".data "s".data "t".data =
      .error (.noJsonFound "I cannot comply".data) ∧
    verifySubmissionCore "I cannot comply".data 100 "s".data "t".data 30 =
      .error "Verification failed: Could not parse Claude response: I cannot comply".data := by
  have h1 := (C6_unparsable_amended "I cannot comply".data "s".data "t".data).1 rfl rfl
  exact ⟨h1,
    (C6_unparsable_amended "I cannot comply".data "s".data "t".data).2.2 _ h1 100 30⟩

/-- Claim C7: exactly one ReputationEvent is appended per outcome — `+5`
with `submission_accepted` and the verdict feedback when valid, `-2` with
`submission_rejected` and the feedback when invalid, `-1` with
`submission_rejected` and the fixed reason "Verification failed" on a
verification failure — and the event carries the requested delta, not a
clamped one. -/
theorem C7_reputation_events (st : DBState) (task_id wallet fu fs fe : List Char)
    (task : Task) (h : getTask st task_id = some task) :
    (∀ r : VerificationResult, r.is_valid = Json.bool true →
      (submitInference st task_id wallet fu fs fe (.ok r)).1.events =
        st.events ++ [⟨fe, (getOrCreateUser st wallet fu).1.id,
          "submission_accepted".data, r.feedback, 5⟩]) ∧
    (∀ r : VerificationResult, r.is_valid = Json.bool false →
      (submitInference st task_id wallet fu fs fe (.ok r)).1.events =
        st.events ++ [⟨fe, (getOrCreateUser st wallet fu).1.id,
          "submission_rejected".data, r.feedback, -2⟩]) ∧
    (∀ e : List Char,
      (submitInference st task_id wallet fu fs fe (.error e)).1.events =
        st.events ++ [⟨fe, (getOrCreateUser st wallet fu).1.id,
          "submission_rejected".data, .str "Verification failed".data, -1⟩]) := by
  refine ⟨?_, ?_, ?_⟩
  · intro r hv
    unfold submitInference
    rw [h]
    simp [hv, Json.truthy]
  · intro r hv
    unfold submitInference
    rw [h]
    simp [hv, Json.truthy]
  · intro e
    unfold submitInference
    rw [h]
    simp

/-- Witness for C7: a concrete accepted verdict appends the `+5` event with
the verdict feedback; a concrete failure appends the `-1` event with the
fixed reason. -/
theorem C7_reputation_events_witness :
    (submitInference wState "t1".data "0xabc".data "u1".data "s1".data "e1".data
        (.ok wResult)).1.events =
      [⟨"e1".data, "u1".data, "submission_accepted".data, .str "good".data, 5⟩] ∧
    (submitInference wState "t1".data "0xabc".data "u1".data "s1".data "e1".data
        (.error "judge down".data)).1.events =
      [⟨"e1".data, "u1".data, "submission_rejected".data,
        .str "Verification failed".data, -1⟩] := by
  exact ⟨(C7_reputation_events wState "t1".data "0xabc".data "u1".data "s1".data
      "e1".data wTask rfl).1 wResult rfl,
    (C7_reputation_events wState "t1".data "0xabc".data "u1".data "s1".data
      "e1".data wTask rfl).2.2 "judge down".data⟩

/-- Claim C8: a completed verification increments the task's submission
count by exactly 1 (other tasks untouched); a failed verification leaves
every task count unchanged and persists the failed submission with score
0.0, `is_valid = false`, reward 0.0 and the error message in the feedback
(prefixed "Verification error: " by the source). -/
theorem C8_submission_count_frame (st : DBState) (task_id wallet fu fs fe : List Char)
    (task : Task) (h : getTask st task_id = some task) :
    (∀ r : VerificationResult,
      (submitInference st task_id wallet fu fs fe (.ok r)).1.tasks =
        st.tasks.map (fun u =>
          if u.id == task_id then
            { u with current_submissions := task.current_submissions + 1 }
          else u)) ∧
    (∀ e : List Char,
      (submitInference st task_id wallet fu fs fe (.error e)).1.tasks = st.tasks ∧
      (submitInference st task_id wallet fu fs fe (.error e)).1.submissions.getLast? =
        some ⟨fs, task_id, (getOrCreateUser st wallet fu).1.id, some ⟨0, 0⟩,
          some (.bool false), some (.str ("Verification error: ".data ++ e)),
          ⟨0, 0⟩, false⟩) := by
  constructor
  · intro r
    unfold submitInference
    rw [h]
    by_cases hv : r.is_valid.truthy
    all_goals
      conv_lhs => simp [hv]
      exact submit_count_helper (by simp) h
  · intro e
    constructor
    · unfold submitInference
      rw [h]
      simp
    · unfold submitInference
      rw [h]
      conv_lhs => simp [List.map_append]
      try simp [List.getLast?_concat]
      try rfl

/-- Witness for C8: the concrete completed submission takes the task count
from 0 to 1; the concrete failed submission leaves it at 0 and persists the
zeroed row with the error message in the feedback. -/
theorem C8_submission_count_frame_witness :
    (submitInference wState "t1".data "0xabc".data "u1".data "s1".data "e1".data
        (.ok wResult)).1.tasks =
      [⟨"t1".data, "evaluation".data, "active".data, ⟨100, 1⟩, 1⟩] ∧
    (submitInference wState "t1".data "0xabc".data "u1".data "s1".data "e1".data
        (.error "judge down".data)).1.tasks = [wTask] ∧
    (submitInference wState "t1".data "0xabc".data "u1".data "s1".data "e1".data
        (.error "judge down".data)).1.submissions.getLast? =
      some ⟨"s1".data, "t1".data, "u1".data, some ⟨0, 0⟩, some (.bool false),
        some (.str "Verification error: judge down".data), ⟨0, 0⟩, false⟩ := by
  exact ⟨(C8_submission_count_frame wState "t1".data "0xabc".data "u1".data
      "s1".data "e1".data wTask rfl).1 wResult,
    ((C8_submission_count_frame wState "t1".data "0xabc".data "u1".data
      "s1".data "e1".data wTask rfl).2 "judge down".data).1,
    ((C8_submission_count_frame wState "t1".data "0xabc".data "u1".data
      "s1".data "e1".data wTask rfl).2 "judge down".data).2⟩

/-- Claim C9 (counterexample): with the judge available, a single call's
failure does not propagate as a verification failure — `backend/app.py`
substitutes the fixed mock verdict (valid, score 0.85, model
"mock-verifier") and completes the submission as `mock_fallback`. -/
theorem C9_mock_fallback_counterexample :
    (appSubmitInference appState1 "t1".data "s1".data true
        (.error "API connection failed".data)).2 =
      .success "s1".data (mockVerificationResult "s1".data "t1".data) ⟨8500, 3⟩
        "mock_fallback".data ∧
    (mockVerificationResult "s1".data "t1".data).is_valid = Json.bool true ∧
    (mockVerificationResult "s1".data "t1".data).ai_score = ⟨85, 2⟩ ∧
    (mockVerificationResult "s1".data "t1".data).model_used = "mock-verifier".data :=
  ⟨rfl, rfl, rfl, rfl⟩

/-- Claim C9 (amended): the mock verdict replaces the judge when the module
is unavailable at process start (`mock`), and additionally on any single
live call's failure (`mock_fallback`); only a successful live call's result
is used as-is (`claude_ai`). -/
theorem C9_mock_fallback_amended (st : AppState) (task_id sid : List Char)
    (task : AppTask) (h : st.tasks.find? (fun t => t.id == task_id) = some task) :
    (∀ live : Except (List Char) VerificationResult,
      (appSubmitInference st task_id sid false live).2 =
        .success sid (mockVerificationResult sid task_id)
          (Dec.mul task.reward_per_submission ⟨85, 2⟩) "mock".data) ∧
    (∀ e : List Char,
      (appSubmitInference st task_id sid true (.error e)).2 =
        .success sid (mockVerificationResult sid task_id)
          (Dec.mul task.reward_per_submission ⟨85, 2⟩) "mock_fallback".data) ∧
    (∀ r : VerificationResult,
      (appSubmitInference st task_id sid true (.ok r)).2 =
        .success sid r (Dec.mul task.reward_per_submission r.ai_score)
          "claude_ai".data) := by
  refine ⟨fun live => ?_, fun e => ?_, fun r => ?_⟩ <;>
    (unfold appSubmitInference; rw [h]) <;> rfl

/-- Witness for the amended C9: with the module unavailable the mock verdict
is used even though the live call would have succeeded; with it available a
successful live call's verdict is used as-is. -/
theorem C9_mock_fallback_witness :
    (appSubmitInference appState1 "t1".data "s1".data false (.ok wResult)).2 =
      .success "s1".data (mockVerificationResult "s1".data "t1".data)
        (Dec.mul ⟨100, 1⟩ ⟨85, 2⟩) "mock".data ∧
    (appSubmitInference appState1 "t1".data "s1".data true (.ok wResult)).2 =
      .success "s1".data wResult (Dec.mul ⟨100, 1⟩ ⟨85, 2⟩) "claude_ai".data := by
  exact ⟨(C9_mock_fallback_amended appState1 "t1".data "s1".data _ rfl).1 (.ok wResult),
    (C9_mock_fallback_amended appState1 "t1".data "s1".data _ rfl).2.2 wResult⟩

/-- Claim C10: `get_or_create_user` creates a user with reputation exactly
50 and zeroed totals for an unknown wallet (appending exactly that row),
and returns the stored row unchanged — with an unchanged store — for a
known wallet. -/
theorem C10_get_or_create_user (st : DBState) (wallet fid : List Char) :
    (st.users.find? (fun u => u.wallet_address == wallet) = none →
      getOrCreateUser st wallet fid =
        (⟨fid, wallet, "miner_".data ++ wallet.take 8, 50, 0, ⟨0, 0⟩⟩,
         { st with users :=
            st.users ++ [⟨fid, wallet, "miner_".data ++ wallet.take 8, 50, 0, ⟨0, 0⟩⟩] })) ∧
    (∀ u : User, st.users.find? (fun u2 => u2.wallet_address == wallet) = some u →
      getOrCreateUser st wallet fid = (u, st)) := by
  constructor
  · intro h
    unfold getOrCreateUser
    rw [h]
  · intro u h
    unfold getOrCreateUser
    rw [h]

/-- Witness for C10: a fresh wallet creates reputation 50 with zero totals;
an existing wallet returns the stored row and leaves the store unchanged. -/
theorem C10_get_or_create_user_witness :
    getOrCreateUser emptyState "0xabcdef12".data "u1".data =
      (⟨"u1".data, "0xabcdef12".data, "miner_0xabcdef".data, 50, 0, ⟨0, 0⟩⟩,
       ⟨[], [⟨"u1".data, "0xabcdef12".data, "miner_0xabcdef".data, 50, 0, ⟨0, 0⟩⟩],
         [], []⟩) ∧
    getOrCreateUser existingUserState "0xwallet".data "u1".data =
      (existingUser, existingUserState) := by
  exact ⟨(C10_get_or_create_user emptyState "0xabcdef12".data "u1".data).1 rfl,
    (C10_get_or_create_user existingUserState "0xwallet".data "u1".data).2
      existingUser rfl⟩

end RitualMining
